import Mathlib

/-!
Shallow embedding of the device/queue-family selection core of
`src/main.cpp` (a Vulkan bootstrap application).

The embedded fragment covers: the `QueueFamilyIndices` capability
descriptor, `Application::findQueueFamilies` (queue family resolver),
`Application::isDeviceSuitable` and `Application::selectPhysicalDevice`
(device selector), `Application::createLogicalDevice` (logical device
builder), the validation-layer lists passed to instance and device
creation, the error propagation through `main`, and the
acquisition/teardown order of the core resources.

Backend calls (`vkGetPhysicalDeviceQueueFamilyProperties`,
`vkGetPhysicalDeviceSurfaceSupportKHR`, `vkEnumeratePhysicalDevices`,
`vkCreateDevice`, `vkGetDeviceQueue`) are modelled as data supplied in
the input: a physical device carries its queue-family flag list and the
per-family present-support answers for the (device, surface) pair, and
the success of `vkCreateDevice` is an explicit boolean input.
-/

/-- Graphics capability bit of `VkQueueFlags`: `VK_QUEUE_GRAPHICS_BIT = 0x00000001`. -/
def VK_QUEUE_GRAPHICS_BIT : Nat := 1

/-- Validation layer list, `src/main.cpp` line 21:
`const std::vector<const char*> validationLayers = { "VK_LAYER_KHRONOS_validation" };`. -/
def validationLayers : List String := ["VK_LAYER_KHRONOS_validation"]

/-- One queue family of a physical device, as observed by the core:
its `VkQueueFamilyProperties::queueFlags` bitmask and the answer
`vkGetPhysicalDeviceSurfaceSupportKHR` gives for this family index and
the application's surface (`src/main.cpp` lines 283-284). -/
structure QueueFamily where
  queueFlags : Nat
  presentSupport : Bool
deriving DecidableEq, Repr

/-- A physical device as observed by the core: the ordered queue-family
list returned by `vkGetPhysicalDeviceQueueFamilyProperties`
(`src/main.cpp` lines 266-269). -/
structure PhysicalDevice where
  queueFamilies : List QueueFamily
deriving DecidableEq, Repr

/-- `struct QueueFamilyIndices` of `src/main.cpp` lines 45-51:
optional graphics and presentation family indices, no value unless one
is assigned. -/
structure QueueFamilyIndices where
  graphicsFamily : Option Nat
  presentFamily : Option Nat
deriving DecidableEq, Repr

/-- `QueueFamilyIndices::isComplete` (`src/main.cpp` line 50):
`graphicsFamily.has_value() && presentFamily.has_value()`. -/
def QueueFamilyIndices.isComplete (q : QueueFamilyIndices) : Bool :=
  q.graphicsFamily.isSome && q.presentFamily.isSome

/-- Truthiness of `queueFamily.queueFlags & VK_QUEUE_GRAPHICS_BIT`
(`src/main.cpp` line 276). -/
def hasGraphicsFlag (f : QueueFamily) : Bool :=
  (f.queueFlags &&& VK_QUEUE_GRAPHICS_BIT) != 0

/-- Loop body of `Application::findQueueFamilies` (`src/main.cpp` lines
274-289), with the loop counter `i` and the accumulated indices made
explicit.  Per family, in source order: assign `graphicsFamily = i` when
the graphics bit is set (unconditionally — the source has no
already-recorded guard); break when `isComplete()`; otherwise query
present support for index `i` and assign `presentFamily = i` when
supported (again unconditionally); advance to the next family. -/
def findQueueFamiliesLoop : List QueueFamily → Nat → QueueFamilyIndices → QueueFamilyIndices
  | [], _, indices => indices
  | qf :: rest, i, indices =>
    let indices1 := if hasGraphicsFlag qf then { indices with graphicsFamily := some i } else indices
    if indices1.isComplete then indices1
    else
      let indices2 := if qf.presentSupport then { indices1 with presentFamily := some i } else indices1
      findQueueFamiliesLoop rest (i + 1) indices2

/-- `Application::findQueueFamilies` (`src/main.cpp` lines 262-291):
run the resolver loop over the device's queue families starting at
index 0 with both entries unset. -/
def findQueueFamilies (device : PhysicalDevice) : QueueFamilyIndices :=
  findQueueFamiliesLoop device.queueFamilies 0 ⟨none, none⟩

/-- `Application::isDeviceSuitable` (`src/main.cpp` lines 228-233):
`return indices.graphicsFamily.has_value();` — only the graphics entry
is checked, not `isComplete()`. -/
def isDeviceSuitable (device : PhysicalDevice) : Bool :=
  (findQueueFamilies device).graphicsFamily.isSome

/-- Errors thrown by the embedded core.  The first three correspond to
the `std::runtime_error` throws in `selectPhysicalDevice` and
`createLogicalDevice`; `badOptionalAccess` models the
`std::bad_optional_access` exception raised by
`std::optional::value()` on an empty optional. -/
inductive VkError where
  | noDeviceFound
  | noSuitableDeviceFound
  | deviceCreationFailed
  | badOptionalAccess
deriving DecidableEq, Repr

/-- Human-readable message carried by each error, as produced by
`e.what()` for the exceptions the program throws (`src/main.cpp` lines
241, 256, 373; libstdc++ wording for `std::bad_optional_access`). -/
def VkError.message : VkError → String
  | .noDeviceFound => "Failed to find GPU with Vulkan support!"
  | .noSuitableDeviceFound => "Failed to find a suitable GPU!"
  | .deviceCreationFailed => "Failed to create logical device!"
  | .badOptionalAccess => "bad optional access"

/-- Selection loop of `Application::selectPhysicalDevice`
(`src/main.cpp` lines 248-253): iterate through the devices and grab
the first suitable device. -/
def selectLoop : List PhysicalDevice → Option PhysicalDevice
  | [] => none
  | d :: rest => if isDeviceSuitable d then some d else selectLoop rest

/-- `Application::selectPhysicalDevice` (`src/main.cpp` lines 235-260):
throw when zero devices were enumerated, otherwise take the first
suitable device, and throw when none is suitable (the handle stayed
`VK_NULL_HANDLE`). -/
def selectPhysicalDevice (devices : List PhysicalDevice) : Except VkError PhysicalDevice :=
  if devices.length = 0 then Except.error VkError.noDeviceFound
  else
    match selectLoop devices with
    | some d => Except.ok d
    | none => Except.error VkError.noSuitableDeviceFound

/-- A queue handle as returned by `vkGetDeviceQueue`: determined by the
queue family index and the queue index within that family. -/
abbrev QueueHandle := Nat × Nat

/-- `vkGetDeviceQueue` modelled as a deterministic backend: the handle
is a function of the (queue family index, queue index) pair
(`src/main.cpp` lines 376-377 call it with queue index 0). -/
def vkGetDeviceQueue (queueFamilyIndex queueIndex : Nat) : QueueHandle :=
  (queueFamilyIndex, queueIndex)

/-- One `VkDeviceQueueCreateInfo` as filled in by
`Application::createLogicalDevice` (`src/main.cpp` lines 344-351):
a queue family index, `queueCount = 1`, and the priority value pointed
to by `pQueuePriorities` (the float `1.0f`, modelled as the rational 1). -/
structure VkDeviceQueueCreateInfo where
  queueFamilyIndex : Nat
  queueCount : Nat
  queuePriority : ℚ
deriving DecidableEq, Repr

/-- `std::set<uint32_t> uniqueQueueFamilies = { g, p }`
(`src/main.cpp` line 338): the sorted duplicate-free set of the two
resolved indices — one element when they coincide, two in ascending
order otherwise. -/
def uniqueQueueFamilies (g p : Nat) : List Nat :=
  if g = p then [g] else if g < p then [g, p] else [p, g]

/-- The queue-creation request list built by the loop of
`src/main.cpp` lines 344-351: one `VkDeviceQueueCreateInfo` per element
of `uniqueQueueFamilies`, each with `queueCount = 1` and priority `1.0f`. -/
def buildQueueCreateInfos (g p : Nat) : List VkDeviceQueueCreateInfo :=
  (uniqueQueueFamilies g p).map (fun queueFamily => ⟨queueFamily, 1, 1⟩)

/-- Layer list enabled on the instance create info
(`src/main.cpp` lines 158-170): `validationLayers` when validation is
enabled, zero layers otherwise. -/
def instanceEnabledLayers (enableValidationLayers : Bool) : List String :=
  if enableValidationLayers then validationLayers else []

/-- Layer list enabled on the device create info
(`src/main.cpp` lines 362-369): `validationLayers` when validation is
enabled, zero layers otherwise. -/
def deviceEnabledLayers (enableValidationLayers : Bool) : List String :=
  if enableValidationLayers then validationLayers else []

/-- The logical-device execution context built by
`Application::createLogicalDevice`: the queue-creation requests and
layer list of its `VkDeviceCreateInfo`, and the two stored queue
handles (`graphicsQueue`, `presentQueue`). -/
structure LogicalDeviceContext where
  queueCreateInfos : List VkDeviceQueueCreateInfo
  deviceLayers : List String
  graphicsQueue : QueueHandle
  presentQueue : QueueHandle
deriving DecidableEq, Repr

/-- `Application::createLogicalDevice` (`src/main.cpp` lines 332-378):
re-resolve the queue family indices, read both with
`std::optional::value()` (which raises `std::bad_optional_access` on an
empty optional — modelled by the catch-all match arm), build one
queue-creation request per distinct resolved index, enable the
validation layers on the device when active, call `vkCreateDevice`
(whose success is the explicit input `vkCreateDeviceSucceeds`; on
failure the function throws `deviceCreationFailed`), and finally
retrieve and store the graphics and presentation queue handles with
queue index 0. -/
def createLogicalDevice (enableValidationLayers vkCreateDeviceSucceeds : Bool)
    (physicalDevice : PhysicalDevice) : Except VkError LogicalDeviceContext :=
  let indices := findQueueFamilies physicalDevice
  match indices.graphicsFamily, indices.presentFamily with
  | some g, some p =>
    if vkCreateDeviceSucceeds then
      Except.ok
        { queueCreateInfos := buildQueueCreateInfos g p
          deviceLayers := deviceEnabledLayers enableValidationLayers
          graphicsQueue := vkGetDeviceQueue g 0
          presentQueue := vkGetDeviceQueue p 0 }
    else Except.error VkError.deviceCreationFailed
  | _, _ => Except.error VkError.badOptionalAccess

/-- Environment of one startup run: the enumerated physical devices,
whether validation layers are active, and whether the backend accepts
the `vkCreateDevice` call. -/
structure Env where
  devices : List PhysicalDevice
  enableValidationLayers : Bool
  deviceCreateSucceeds : Bool
deriving DecidableEq, Repr

/-- The device-related part of `Application::initVulkan`
(`src/main.cpp` lines 121-127): select the physical device, then build
the logical device context.  Instance, debug messenger and surface
creation are external collaborators and not part of the core. -/
def initVulkan (env : Env) : Except VkError LogicalDeviceContext :=
  match selectPhysicalDevice env.devices with
  | Except.ok d => createLogicalDevice env.enableValidationLayers env.deviceCreateSucceeds d
  | Except.error e => Except.error e

/-- `EXIT_SUCCESS` of `<cstdlib>`. -/
def EXIT_SUCCESS : Nat := 0

/-- `EXIT_FAILURE` of `<cstdlib>`. -/
def EXIT_FAILURE : Nat := 1

/-- `main` (`src/main.cpp` lines 89-99): run the application; on any
exception print `e.what()` to stderr and return `EXIT_FAILURE`,
otherwise return `EXIT_SUCCESS`.  The result is the exit status paired
with the reported message, if any. -/
def mainResult (env : Env) : Nat × Option String :=
  match initVulkan env with
  | Except.ok _ => (EXIT_SUCCESS, none)
  | Except.error e => (EXIT_FAILURE, some e.message)

/-- Core resources whose acquisition/teardown order the application
controls.  The window and the debug messenger are external
collaborators (and the messenger's destruction is commented out in the
source, `src/main.cpp` line 193), so only the core triple is modelled. -/
inductive Resource where
  | vkInstance
  | vkSurface
  | vkLogicalDevice
deriving DecidableEq, Repr

/-- Acquisition order of the core resources along
`Application::run`/`initVulkan` (`src/main.cpp` lines 102-127):
`createInstance`, then `createSurface`, then (after physical-device
selection) `createLogicalDevice`. -/
def acquisitionOrder : List Resource :=
  [Resource.vkInstance, Resource.vkSurface, Resource.vkLogicalDevice]

/-- Teardown order of the core resources in `Application::cleanup`
(`src/main.cpp` lines 187-202): `vkDestroyDevice`, then
`vkDestroySurfaceKHR`, then `vkDestroyInstance`. -/
def teardownOrder : List Resource :=
  [Resource.vkLogicalDevice, Resource.vkSurface, Resource.vkInstance]

/-- Index of the last queue family carrying the graphics flag, or
`none` when no family does.  This is the value the resolver's
unconditional assignment leaves behind when the loop never breaks. -/
def lastGraphicsIndex : List QueueFamily → Option Nat
  | [] => none
  | f :: rest =>
    match lastGraphicsIndex rest with
    | some j => some (j + 1)
    | none => if hasGraphicsFlag f then some 0 else none

/-- The present-support oracle of a fixed (device, surface) pair:
what `vkGetPhysicalDeviceSurfaceSupportKHR` answers for each queried
family index. -/
def surfaceSupportOracle (fams : List QueueFamily) : Nat → Bool :=
  fun i => ((fams.get? i).map QueueFamily.presentSupport).getD false

/-- The resolver loop of `Application::findQueueFamilies` with the
present-support backend call left abstract: the family flag list and an
arbitrary oracle answering the per-index present-support query. -/
def findQueueFamiliesOracleLoop : List Nat → (Nat → Bool) → Nat → QueueFamilyIndices → QueueFamilyIndices
  | [], _, _, indices => indices
  | fl :: rest, oracle, i, indices =>
    let indices1 := if (fl &&& VK_QUEUE_GRAPHICS_BIT) != 0 then { indices with graphicsFamily := some i } else indices
    if indices1.isComplete then indices1
    else
      let indices2 := if oracle i then { indices1 with presentFamily := some i } else indices1
      findQueueFamiliesOracleLoop rest oracle (i + 1) indices2

/-! ## Helper lemmas -/

theorem uniqueQueueFamilies_length (g p : Nat) :
    (uniqueQueueFamilies g p).length = if g = p then 1 else 2 := by
  unfold uniqueQueueFamilies
  by_cases h : g = p <;> simp [h]
  by_cases h2 : g < p <;> simp [h2]

theorem uniqueQueueFamilies_mem (g p q : Nat) :
    q ∈ uniqueQueueFamilies g p ↔ (q = g ∨ q = p) := by
  unfold uniqueQueueFamilies
  by_cases h : g = p
  · simp [h]
  · by_cases h2 : g < p
    · simp [h, h2]
    · simp [h, h2]
      tauto

theorem uniqueQueueFamilies_nodup (g p : Nat) :
    (uniqueQueueFamilies g p).Nodup := by
  unfold uniqueQueueFamilies
  by_cases h : g = p
  · simp [h]
  · by_cases h2 : g < p
    · simp [h, h2]
    · simp [h, h2]
      omega


theorem isComplete_graphics (q : QueueFamilyIndices) (h : q.isComplete = true) :
    q.graphicsFamily.isSome = true := by
  simp [QueueFamilyIndices.isComplete] at h
  exact h.1

theorem findLoop_graphics_isSome (fams : List QueueFamily) :
    ∀ (i : Nat) (acc : QueueFamilyIndices),
    ((∃ f ∈ fams, hasGraphicsFlag f = true) ∨ acc.graphicsFamily.isSome = true) →
    (findQueueFamiliesLoop fams i acc).graphicsFamily.isSome = true := by
  induction fams with
  | nil =>
    intro i acc h
    rcases h with h | h
    · simp at h
    · simpa [findQueueFamiliesLoop] using h
  | cons f rest ih =>
    intro i acc h
    have hga : (∃ f2 ∈ rest, hasGraphicsFlag f2 = true) ∨
        (hasGraphicsFlag f = true ∨ acc.graphicsFamily.isSome = true) := by
      rcases h with ⟨f2, hmem, hf2⟩ | h2
      · rcases List.mem_cons.mp hmem with rfl | hmem2
        · exact Or.inr (Or.inl hf2)
        · exact Or.inl ⟨f2, hmem2, hf2⟩
      · exact Or.inr (Or.inr h2)
    by_cases hf : hasGraphicsFlag f = true
    · by_cases hc : (QueueFamilyIndices.mk (some i) acc.presentFamily).isComplete = true
      · simp [findQueueFamiliesLoop, hf, hc]
      · by_cases hp : f.presentSupport = true
        · simp [findQueueFamiliesLoop, hf, hc, hp]
          exact ih _ _ (Or.inr (by simp))
        · simp [findQueueFamiliesLoop, hf, hc, hp]
          exact ih _ _ (Or.inr (by simp))
    · by_cases hc : acc.isComplete = true
      · simp [findQueueFamiliesLoop, hf, hc, isComplete_graphics acc hc]
      · have hga2 : (∃ f2 ∈ rest, hasGraphicsFlag f2 = true) ∨ acc.graphicsFamily.isSome = true := by
          rcases hga with hga | hga
          · exact Or.inl hga
          · rcases hga with hga | hga
            · exact absurd hga hf
            · exact Or.inr hga
        by_cases hp : f.presentSupport = true
        · simp [findQueueFamiliesLoop, hf, hc, hp]
          apply ih
          rcases hga2 with hga2 | hga2
          · exact Or.inl hga2
          · exact Or.inr (by simpa using hga2)
        · simp [findQueueFamiliesLoop, hf, hc, hp]
          exact ih _ _ hga2

theorem findLoop_no_present (fams : List QueueFamily) :
    ∀ (i : Nat) (g : Option Nat),
    (∀ f ∈ fams, f.presentSupport = false) →
    findQueueFamiliesLoop fams i ⟨g, none⟩ =
      ⟨match lastGraphicsIndex fams with
        | some j => some (i + j)
        | none => g, none⟩ := by
  induction fams with
  | nil => intro i g h; simp [findQueueFamiliesLoop, lastGraphicsIndex]
  | cons f rest ih =>
    intro i g h
    have hf : f.presentSupport = false := h f (List.mem_cons_self f rest)
    have hrest : ∀ f2 ∈ rest, f2.presentSupport = false :=
      fun f2 hm => h f2 (List.mem_cons_of_mem f hm)
    by_cases hg : hasGraphicsFlag f = true
    · have hstep : findQueueFamiliesLoop (f :: rest) i ⟨g, none⟩ =
          findQueueFamiliesLoop rest (i + 1) ⟨some i, none⟩ := by
        simp [findQueueFamiliesLoop, hg, hf, QueueFamilyIndices.isComplete]
      rw [hstep, ih (i + 1) (some i) hrest]
      cases hLG : lastGraphicsIndex rest with
      | some j =>
        simp only [lastGraphicsIndex, hLG]
        have harith : i + 1 + j = i + (j + 1) := by omega
        rw [harith]
      | none => simp [lastGraphicsIndex, hLG, hg]
    · have hstep : findQueueFamiliesLoop (f :: rest) i ⟨g, none⟩ =
          findQueueFamiliesLoop rest (i + 1) ⟨g, none⟩ := by
        simp [findQueueFamiliesLoop, hg, hf, QueueFamilyIndices.isComplete]
      rw [hstep, ih (i + 1) g hrest]
      cases hLG : lastGraphicsIndex rest with
      | some j =>
        simp only [lastGraphicsIndex, hLG]
        have harith : i + 1 + j = i + (j + 1) := by omega
        rw [harith]
      | none => simp [lastGraphicsIndex, hLG, hg]

theorem lastGraphicsIndex_none (fams : List QueueFamily) :
    lastGraphicsIndex fams = none → ∀ f ∈ fams, hasGraphicsFlag f = false := by
  induction fams with
  | nil => intro h f hf; simp at hf
  | cons f rest ih =>
    intro h f2 hmem
    cases hLG : lastGraphicsIndex rest with
    | some j => rw [lastGraphicsIndex, hLG] at h; simp at h
    | none =>
      rw [lastGraphicsIndex, hLG] at h
      by_cases hflag : hasGraphicsFlag f = true
      · simp [hflag] at h
      · rcases List.mem_cons.mp hmem with rfl | hmem2
        · simpa using hflag
        · exact ih hLG f2 hmem2

theorem lastGraphicsIndex_isSome (fams : List QueueFamily)
    (h : ∃ f ∈ fams, hasGraphicsFlag f = true) : (lastGraphicsIndex fams).isSome = true := by
  cases hLG : lastGraphicsIndex fams with
  | some j => rfl
  | none =>
    rcases h with ⟨f, hmem, hflag⟩
    have hfalse := lastGraphicsIndex_none fams hLG f hmem
    rw [hflag] at hfalse
    exact absurd hfalse (by simp)

theorem lastGraphicsIndex_spec (fams : List QueueFamily) :
    ∀ j, lastGraphicsIndex fams = some j →
      (∃ fj, fams.get? j = some fj ∧ hasGraphicsFlag fj = true) ∧
      (∀ k fk, j < k → fams.get? k = some fk → hasGraphicsFlag fk = false) := by
  induction fams with
  | nil => intro j h; simp [lastGraphicsIndex] at h
  | cons f rest ih =>
    intro j h
    cases hLG : lastGraphicsIndex rest with
    | some j0 =>
      rw [lastGraphicsIndex, hLG] at h
      have hj : j0 + 1 = j := by injection h
      subst hj
      obtain ⟨⟨fj, hget, hflag⟩, hafter⟩ := ih j0 hLG
      constructor
      · exact ⟨fj, by simpa using hget, hflag⟩
      · intro k fk hk hget2
        cases k with
        | zero => omega
        | succ k0 =>
          apply hafter k0 fk (by omega)
          simpa using hget2
    | none =>
      rw [lastGraphicsIndex, hLG] at h
      by_cases hflag : hasGraphicsFlag f = true
      · rw [if_pos hflag] at h
        have hj : (0 : Nat) = j := by injection h
        subst hj
        constructor
        · exact ⟨f, rfl, hflag⟩
        · intro k fk hk hget2
          cases k with
          | zero => omega
          | succ k0 =>
            have hmem : fk ∈ rest := List.get?_mem (by simpa using hget2)
            exact lastGraphicsIndex_none rest hLG fk hmem
      · rw [if_neg hflag] at h
        exact absurd h (by simp)

theorem oracleLoop_congr (flags : List Nat) :
    ∀ (o1 o2 : Nat → Bool) (i : Nat) (acc : QueueFamilyIndices),
    (∀ j, i ≤ j → j < i + flags.length → o1 j = o2 j) →
    findQueueFamiliesOracleLoop flags o1 i acc = findQueueFamiliesOracleLoop flags o2 i acc := by
  induction flags with
  | nil => intro o1 o2 i acc h; rfl
  | cons fl rest ih =>
    intro o1 o2 i acc h
    have ho : o1 i = o2 i := h i (Nat.le_refl i) (by simp)
    have hrest : ∀ j, i + 1 ≤ j → j < i + 1 + rest.length → o1 j = o2 j := by
      intro j h1 h2
      exact h j (by omega) (by simp; omega)
    by_cases hg : (fl &&& VK_QUEUE_GRAPHICS_BIT) != 0
    · by_cases hc : (QueueFamilyIndices.mk (some i) acc.presentFamily).isComplete = true
      · simp [findQueueFamiliesOracleLoop, hg, hc]
      · simp [findQueueFamiliesOracleLoop, hg, hc, ho]
        exact ih o1 o2 (i + 1) _ hrest
    · by_cases hc : acc.isComplete = true
      · simp [findQueueFamiliesOracleLoop, hg, hc]
      · simp [findQueueFamiliesOracleLoop, hg, hc, ho]
        exact ih o1 o2 (i + 1) _ hrest

theorem oracleLoop_eq_findLoop (tail : List QueueFamily) :
    ∀ (fams : List QueueFamily) (i : Nat) (acc : QueueFamilyIndices),
    (∀ k, tail.get? k = fams.get? (i + k)) →
    findQueueFamiliesOracleLoop (tail.map QueueFamily.queueFlags) (surfaceSupportOracle fams) i acc =
      findQueueFamiliesLoop tail i acc := by
  induction tail with
  | nil => intro fams i acc h; rfl
  | cons f rest ih =>
    intro fams i acc h
    have hget : fams.get? i = some f := by
      have := h 0
      simpa using this.symm
    have horacle : surfaceSupportOracle fams i = f.presentSupport := by
      unfold surfaceSupportOracle
      rw [hget]
      rfl
    have hrest : ∀ k, rest.get? k = fams.get? (i + 1 + k) := by
      intro k
      have := h (k + 1)
      simpa [Nat.add_assoc, Nat.add_comm 1 k] using this
    by_cases hg : hasGraphicsFlag f = true
    · have hg2 : ((f.queueFlags &&& VK_QUEUE_GRAPHICS_BIT) != 0) = true := hg
      by_cases hc : (QueueFamilyIndices.mk (some i) acc.presentFamily).isComplete = true
      · simp [findQueueFamiliesOracleLoop, findQueueFamiliesLoop, hasGraphicsFlag, hg2, hg, hc]
      · by_cases hp : f.presentSupport = true
        · simp [findQueueFamiliesOracleLoop, findQueueFamiliesLoop, hasGraphicsFlag, hg2, hg, hc, horacle, hp]
          exact ih fams (i + 1) _ hrest
        · simp [findQueueFamiliesOracleLoop, findQueueFamiliesLoop, hasGraphicsFlag, hg2, hg, hc, horacle, hp]
          exact ih fams (i + 1) _ hrest
    · have hg2 : ((f.queueFlags &&& VK_QUEUE_GRAPHICS_BIT) != 0) = false := by
        simpa [hasGraphicsFlag] using hg
      by_cases hc : acc.isComplete = true
      · simp [findQueueFamiliesOracleLoop, findQueueFamiliesLoop, hasGraphicsFlag, hg2, hc]
      · by_cases hp : f.presentSupport = true
        · simp [findQueueFamiliesOracleLoop, findQueueFamiliesLoop, hasGraphicsFlag, hg2, hc, horacle, hp]
          exact ih fams (i + 1) _ hrest
        · simp [findQueueFamiliesOracleLoop, findQueueFamiliesLoop, hasGraphicsFlag, hg2, hc, horacle, hp]
          exact ih fams (i + 1) _ hrest

/-! ## Claim theorems -/

/-- C1 (code bug evaluation): on the device list `[A, B]`, where `A` has a
single graphics-capable family with no presentation support (incomplete
mapping) and `B` is complete, the selector as implemented returns `A` —
not the first complete device `B` — because `isDeviceSuitable` checks
only `graphicsFamily.has_value()`. -/
theorem c1_selects_incomplete_device :
    selectPhysicalDevice [⟨[⟨VK_QUEUE_GRAPHICS_BIT, false⟩]⟩, ⟨[⟨VK_QUEUE_GRAPHICS_BIT, true⟩]⟩] =
      Except.ok ⟨[⟨VK_QUEUE_GRAPHICS_BIT, false⟩]⟩ ∧
    (findQueueFamilies ⟨[⟨VK_QUEUE_GRAPHICS_BIT, false⟩]⟩).isComplete = false ∧
    (findQueueFamilies ⟨[⟨VK_QUEUE_GRAPHICS_BIT, true⟩]⟩).isComplete = true :=
  ⟨rfl, rfl, rfl⟩

/-- C2 (counterexample): a device with two graphics-capable families and
no presentation support anywhere.  Family 0 is graphics-capable, so the
lowest graphics index is 0, but the resolver's `Graphics` entry is 1:
the second family overwrites the recorded entry. -/
theorem c2_counterexample :
    hasGraphicsFlag ⟨VK_QUEUE_GRAPHICS_BIT, false⟩ = true ∧
    (findQueueFamilies ⟨[⟨VK_QUEUE_GRAPHICS_BIT, false⟩, ⟨VK_QUEUE_GRAPHICS_BIT, false⟩]⟩).graphicsFamily
      = some 1 ∧
    (findQueueFamilies ⟨[⟨VK_QUEUE_GRAPHICS_BIT, false⟩, ⟨VK_QUEUE_GRAPHICS_BIT, false⟩]⟩).graphicsFamily
      ≠ some 0 := by
  refine ⟨rfl, rfl, ?_⟩
  decide

/-- C2 (amended): the resolver does not record-once — each later
qualifying family visited before the loop terminates overwrites the
entry.  Whenever at least one family has the graphics flag, the
`Graphics` entry is present; and when no family supports presentation
(so the loop never breaks), the `Graphics` entry is the highest
graphics-capable index — a graphics-capable index with no
graphics-capable family after it — not the lowest, and the
`Presentation` entry stays absent. -/
theorem c2_amended (d : PhysicalDevice) :
    ((∃ f ∈ d.queueFamilies, hasGraphicsFlag f = true) →
      (findQueueFamilies d).graphicsFamily.isSome = true) ∧
    ((∀ f ∈ d.queueFamilies, f.presentSupport = false) →
      (findQueueFamilies d).presentFamily = none ∧
      ((∃ f ∈ d.queueFamilies, hasGraphicsFlag f = true) →
        ∃ j, (findQueueFamilies d).graphicsFamily = some j ∧
          (∃ fj, d.queueFamilies.get? j = some fj ∧ hasGraphicsFlag fj = true) ∧
          (∀ k fk, j < k → d.queueFamilies.get? k = some fk → hasGraphicsFlag fk = false))) := by
  constructor
  · intro h
    exact findLoop_graphics_isSome d.queueFamilies 0 ⟨none, none⟩ (Or.inl h)
  · intro hnp
    have hloop := findLoop_no_present d.queueFamilies 0 none hnp
    unfold findQueueFamilies
    rw [hloop]
    constructor
    · rfl
    · intro hex
      have hsome := lastGraphicsIndex_isSome d.queueFamilies hex
      cases hLG : lastGraphicsIndex d.queueFamilies with
      | none => rw [hLG] at hsome; simp at hsome
      | some j =>
        obtain ⟨hat, hafter⟩ := lastGraphicsIndex_spec d.queueFamilies j hLG
        refine ⟨j, ?_, hat, hafter⟩
        simp [hLG]

/-- C2 (amended) witness at a concrete device: two graphics-capable
families, no presentation support. -/
theorem c2_amended_witness :
    (findQueueFamilies ⟨[⟨VK_QUEUE_GRAPHICS_BIT, false⟩, ⟨VK_QUEUE_GRAPHICS_BIT, false⟩]⟩).graphicsFamily.isSome = true ∧
    (findQueueFamilies ⟨[⟨VK_QUEUE_GRAPHICS_BIT, false⟩, ⟨VK_QUEUE_GRAPHICS_BIT, false⟩]⟩).presentFamily = none :=
  ⟨(c2_amended ⟨[⟨VK_QUEUE_GRAPHICS_BIT, false⟩, ⟨VK_QUEUE_GRAPHICS_BIT, false⟩]⟩).1 (by decide),
   ((c2_amended ⟨[⟨VK_QUEUE_GRAPHICS_BIT, false⟩, ⟨VK_QUEUE_GRAPHICS_BIT, false⟩]⟩).2 (by decide)).1⟩

theorem buildQueueCreateInfos_map_index (g p : Nat) :
    (buildQueueCreateInfos g p).map VkDeviceQueueCreateInfo.queueFamilyIndex = uniqueQueueFamilies g p := by
  simp [buildQueueCreateInfos, List.map_map, Function.comp_def]

/-- C3: for every selected device whose resolved indices are complete
(`Graphics = g`, `Presentation = p`), the builder succeeds (when the
backend accepts the creation) with exactly one queue-creation request
per distinct resolved family index — the requested indices are
duplicate-free and are exactly `{g, p}`, so there is one request when
`g = p` and two otherwise — each requesting one queue at priority 1.0;
and it performs two separate handle retrievals, storing the graphics
handle for family `g` and the presentation handle for family `p`, which
are equal handle values whenever `g = p`. -/
theorem c3_logical_device_builder (v : Bool) (d : PhysicalDevice) (g p : Nat)
    (hg : (findQueueFamilies d).graphicsFamily = some g)
    (hp : (findQueueFamilies d).presentFamily = some p) :
    ∃ ctx : LogicalDeviceContext,
      createLogicalDevice v true d = Except.ok ctx ∧
      ctx.queueCreateInfos.length = (if g = p then 1 else 2) ∧
      (ctx.queueCreateInfos.map VkDeviceQueueCreateInfo.queueFamilyIndex).Nodup ∧
      (∀ q : Nat, q ∈ ctx.queueCreateInfos.map VkDeviceQueueCreateInfo.queueFamilyIndex ↔ (q = g ∨ q = p)) ∧
      (∀ info ∈ ctx.queueCreateInfos, info.queueCount = 1 ∧ info.queuePriority = 1) ∧
      ctx.graphicsQueue = vkGetDeviceQueue g 0 ∧
      ctx.presentQueue = vkGetDeviceQueue p 0 ∧
      (g = p → ctx.graphicsQueue = ctx.presentQueue) := by
  refine ⟨⟨buildQueueCreateInfos g p, deviceEnabledLayers v, vkGetDeviceQueue g 0, vkGetDeviceQueue p 0⟩,
    ?_, ?_, ?_, ?_, ?_, rfl, rfl, ?_⟩
  · simp [createLogicalDevice, hg, hp]
  · simp [buildQueueCreateInfos, uniqueQueueFamilies_length]
  · rw [buildQueueCreateInfos_map_index]
    exact uniqueQueueFamilies_nodup g p
  · intro q
    rw [buildQueueCreateInfos_map_index]
    exact uniqueQueueFamilies_mem g p q
  · intro info hinfo
    simp only [buildQueueCreateInfos, List.mem_map] at hinfo
    obtain ⟨q, hq, rfl⟩ := hinfo
    exact ⟨rfl, rfl⟩
  · intro h
    rw [h]

/-- C3 witness: a single family satisfying both capabilities (`g = p = 0`). -/
theorem c3_logical_device_builder_witness :
    ∃ ctx : LogicalDeviceContext,
      createLogicalDevice true true ⟨[⟨VK_QUEUE_GRAPHICS_BIT, true⟩]⟩ = Except.ok ctx ∧
      ctx.queueCreateInfos.length = (if (0 : Nat) = 0 then 1 else 2) ∧
      (ctx.queueCreateInfos.map VkDeviceQueueCreateInfo.queueFamilyIndex).Nodup ∧
      (∀ q : Nat, q ∈ ctx.queueCreateInfos.map VkDeviceQueueCreateInfo.queueFamilyIndex ↔ (q = 0 ∨ q = 0)) ∧
      (∀ info ∈ ctx.queueCreateInfos, info.queueCount = 1 ∧ info.queuePriority = 1) ∧
      ctx.graphicsQueue = vkGetDeviceQueue 0 0 ∧
      ctx.presentQueue = vkGetDeviceQueue 0 0 ∧
      ((0 : Nat) = 0 → ctx.graphicsQueue = ctx.presentQueue) :=
  c3_logical_device_builder true ⟨[⟨VK_QUEUE_GRAPHICS_BIT, true⟩]⟩ 0 0 rfl rfl

/-- C4 (code bug evaluation): the empty device list fails with
`NoDeviceFound` (a different error kind than `NoSuitableDeviceFound`);
but for the one-device list whose single device has a graphics family
and no presentation support — so no device satisfies all required
capabilities — the selector does not raise `NoSuitableDeviceFound`: it
succeeds, returning the incomplete device. -/
theorem c4_error_kinds :
    selectPhysicalDevice [] = Except.error VkError.noDeviceFound ∧
    VkError.noDeviceFound ≠ VkError.noSuitableDeviceFound ∧
    (findQueueFamilies ⟨[⟨VK_QUEUE_GRAPHICS_BIT, false⟩]⟩).isComplete = false ∧
    selectPhysicalDevice [⟨[⟨VK_QUEUE_GRAPHICS_BIT, false⟩]⟩] =
      Except.ok ⟨[⟨VK_QUEUE_GRAPHICS_BIT, false⟩]⟩ :=
  ⟨rfl, by decide, rfl, rfl⟩

/-- C5: for the device list `[D0]` with families
`[{flags: Graphics, presentSupport: false}, {flags: none, presentSupport: true}]`,
the resolver yields `Graphics = 0` and `Presentation = 1`, and the
builder creates exactly two queue-creation requests. -/
theorem c5_scenario :
    findQueueFamilies ⟨[⟨VK_QUEUE_GRAPHICS_BIT, false⟩, ⟨0, true⟩]⟩ = ⟨some 0, some 1⟩ ∧
    ∃ ctx : LogicalDeviceContext,
      createLogicalDevice true true ⟨[⟨VK_QUEUE_GRAPHICS_BIT, false⟩, ⟨0, true⟩]⟩ = Except.ok ctx ∧
      ctx.queueCreateInfos.length = 2 :=
  ⟨rfl, ⟨buildQueueCreateInfos 0 1, deviceEnabledLayers true, vkGetDeviceQueue 0 0, vkGetDeviceQueue 1 0⟩,
    rfl, rfl⟩

/-- C6: when the backend rejects device creation for a device with
complete resolved indices, the builder fails with
`DeviceCreationFailed`; and every startup failure propagates to `main`,
which reports the error's human-readable message and returns
`EXIT_FAILURE` (non-zero), with no logical device context exposed. -/
theorem c6_error_propagation :
    (∀ (v : Bool) (d : PhysicalDevice), (findQueueFamilies d).isComplete = true →
      createLogicalDevice v false d = Except.error VkError.deviceCreationFailed) ∧
    (∀ (env : Env) (e : VkError), initVulkan env = Except.error e →
      mainResult env = (EXIT_FAILURE, some e.message) ∧
      EXIT_FAILURE ≠ EXIT_SUCCESS ∧
      ∀ ctx : LogicalDeviceContext, initVulkan env ≠ Except.ok ctx) := by
  constructor
  · intro v d hc
    simp [QueueFamilyIndices.isComplete] at hc
    obtain ⟨hg, hp⟩ := hc
    rw [Option.isSome_iff_exists] at hg hp
    obtain ⟨g, hg⟩ := hg
    obtain ⟨p, hp⟩ := hp
    simp [createLogicalDevice, hg, hp]
  · intro env e h
    refine ⟨?_, by decide, ?_⟩
    · unfold mainResult
      rw [h]
    · intro ctx hctx
      rw [h] at hctx
      exact Except.noConfusion hctx

/-- C6 witness: one complete device, backend rejects creation. -/
theorem c6_error_propagation_witness :
    createLogicalDevice true false ⟨[⟨VK_QUEUE_GRAPHICS_BIT, true⟩]⟩ =
      Except.error VkError.deviceCreationFailed ∧
    mainResult ⟨[⟨[⟨VK_QUEUE_GRAPHICS_BIT, true⟩]⟩], true, false⟩ =
      (EXIT_FAILURE, some (VkError.message VkError.deviceCreationFailed)) :=
  ⟨c6_error_propagation.1 true ⟨[⟨VK_QUEUE_GRAPHICS_BIT, true⟩]⟩ rfl,
   (c6_error_propagation.2 ⟨[⟨[⟨VK_QUEUE_GRAPHICS_BIT, true⟩]⟩], true, false⟩
      VkError.deviceCreationFailed rfl).1⟩

/-- C7: the device create info enables exactly the same layer name
list as the instance create info — `validationLayers` when validation
is active, zero layers when inactive — and every successfully built
context carries that list. -/
theorem c7_layer_parity :
    (∀ b : Bool, deviceEnabledLayers b = instanceEnabledLayers b) ∧
    deviceEnabledLayers true = validationLayers ∧
    deviceEnabledLayers false = [] ∧
    (∀ (b cs : Bool) (d : PhysicalDevice) (ctx : LogicalDeviceContext),
      createLogicalDevice b cs d = Except.ok ctx → ctx.deviceLayers = instanceEnabledLayers b) := by
  refine ⟨fun b => rfl, rfl, rfl, ?_⟩
  intro b cs d ctx h
  unfold createLogicalDevice at h
  cases hg : (findQueueFamilies d).graphicsFamily with
  | none => simp [hg] at h
  | some g =>
    cases hp : (findQueueFamilies d).presentFamily with
    | none => simp [hg, hp] at h
    | some p =>
      cases cs with
      | false => simp [hg, hp] at h
      | true =>
        simp [hg, hp] at h
        subst h
        rfl

/-- C7 witness at a concrete device and the validation-active flag. -/
theorem c7_layer_parity_witness :
    (⟨buildQueueCreateInfos 0 0, deviceEnabledLayers true, vkGetDeviceQueue 0 0,
      vkGetDeviceQueue 0 0⟩ : LogicalDeviceContext).deviceLayers = instanceEnabledLayers true :=
  c7_layer_parity.2.2.2 true true ⟨[⟨VK_QUEUE_GRAPHICS_BIT, true⟩]⟩ _ rfl

/-- C8: teardown is the exact reverse of acquisition for the core
resources: the logical device is destroyed strictly before the surface
and the surface strictly before the instance, so in the sequential
teardown trace the instance is destroyed only after both dependents. -/
theorem c8_teardown_order :
    teardownOrder = acquisitionOrder.reverse ∧
    teardownOrder.indexOf Resource.vkLogicalDevice < teardownOrder.indexOf Resource.vkSurface ∧
    teardownOrder.indexOf Resource.vkSurface < teardownOrder.indexOf Resource.vkInstance := by
  refine ⟨rfl, ?_, ?_⟩ <;> decide

/-- C9: suitability as implemented requires only the graphics entry;
consequently a device with a graphics-capable family but no
presentation support is selected with an incomplete mapping and the
builder's `presentFamily.value()` raises `bad_optional_access` — an
error distinct from all three specified error kinds; and whenever the
resolved indices are complete, neither `.value()` call can raise it. -/
theorem c9_incomplete_selection_bad_access :
    (∀ d : PhysicalDevice, isDeviceSuitable d = (findQueueFamilies d).graphicsFamily.isSome) ∧
    ((findQueueFamilies ⟨[⟨VK_QUEUE_GRAPHICS_BIT, false⟩]⟩).isComplete = false ∧
     selectPhysicalDevice [⟨[⟨VK_QUEUE_GRAPHICS_BIT, false⟩]⟩] =
       Except.ok ⟨[⟨VK_QUEUE_GRAPHICS_BIT, false⟩]⟩ ∧
     initVulkan ⟨[⟨[⟨VK_QUEUE_GRAPHICS_BIT, false⟩]⟩], true, true⟩ =
       Except.error VkError.badOptionalAccess ∧
     VkError.badOptionalAccess ≠ VkError.noDeviceFound ∧
     VkError.badOptionalAccess ≠ VkError.noSuitableDeviceFound ∧
     VkError.badOptionalAccess ≠ VkError.deviceCreationFailed) ∧
    (∀ (v cs : Bool) (d : PhysicalDevice), (findQueueFamilies d).isComplete = true →
      createLogicalDevice v cs d ≠ Except.error VkError.badOptionalAccess) := by
  refine ⟨fun d => rfl, ⟨rfl, rfl, rfl, by decide, by decide, by decide⟩, ?_⟩
  intro v cs d hc
  simp [QueueFamilyIndices.isComplete] at hc
  obtain ⟨hg, hp⟩ := hc
  rw [Option.isSome_iff_exists] at hg hp
  obtain ⟨g, hg⟩ := hg
  obtain ⟨p, hp⟩ := hp
  cases cs with
  | true => simp [createLogicalDevice, hg, hp]
  | false => simp [createLogicalDevice, hg, hp]

/-- C9 witness: with complete indices the builder does not raise
`bad_optional_access`. -/
theorem c9_incomplete_selection_bad_access_witness :
    createLogicalDevice true true ⟨[⟨VK_QUEUE_GRAPHICS_BIT, true⟩]⟩ ≠
      Except.error VkError.badOptionalAccess :=
  c9_incomplete_selection_bad_access.2.2 true true ⟨[⟨VK_QUEUE_GRAPHICS_BIT, true⟩]⟩ rfl

/-- C10: the resolver is a pure function of the family flag list and
the present-support oracle of the fixed (device, surface) pair — two
runs whose oracles agree on every in-range family index return the same
`QueueFamilyIndices`, and the resolver applied to a device is exactly
such an oracle run; hence the re-resolution in `createLogicalDevice`
returns the same indices as the resolution during selection. -/
theorem c10_resolver_deterministic :
    (∀ (flags : List Nat) (o1 o2 : Nat → Bool),
      (∀ j, j < flags.length → o1 j = o2 j) →
      findQueueFamiliesOracleLoop flags o1 0 ⟨none, none⟩ =
        findQueueFamiliesOracleLoop flags o2 0 ⟨none, none⟩) ∧
    (∀ d : PhysicalDevice,
      findQueueFamiliesOracleLoop (d.queueFamilies.map QueueFamily.queueFlags)
        (surfaceSupportOracle d.queueFamilies) 0 ⟨none, none⟩ = findQueueFamilies d) := by
  constructor
  · intro flags o1 o2 h
    apply oracleLoop_congr
    intro j h1 h2
    refine h j ?_
    simpa using h2
  · intro d
    unfold findQueueFamilies
    apply oracleLoop_eq_findLoop
    intro k
    rw [Nat.zero_add]

/-- C10 witness: two distinct oracles agreeing on the single in-range
index produce the same resolution. -/
theorem c10_resolver_deterministic_witness :
    findQueueFamiliesOracleLoop [VK_QUEUE_GRAPHICS_BIT] (fun _ => true) 0 ⟨none, none⟩ =
      findQueueFamiliesOracleLoop [VK_QUEUE_GRAPHICS_BIT] (fun j => decide (j = 0)) 0 ⟨none, none⟩ :=
  c10_resolver_deterministic.1 [VK_QUEUE_GRAPHICS_BIT] (fun _ => true) (fun j => decide (j = 0))
    (fun j hj => by
      have hj0 : j = 0 := by
        simp at hj
        omega
      subst hj0
      rfl)
